import Mathlib

/-!
# Country-Capitals resolver: shallow embedding and verification

Shallow embedding of `country_capitals/main.py`, which resolves a country
identifier (ISO alpha-2 / alpha-3 / numeric code, a name, or an
already-resolved country record) to a capital-city name.

Modelling decisions, all traceable to the Python source:

* Python exceptions become an `Exc` value carried in `Except Exc String`.
  `CountryNotFoundError` and `CapitalNotFoundError` subclass `ValueError`
  in the source, so all three are "catchable" by the `except ValueError`
  in `get_capital`; an `AttributeError` is not.
* Attribute access on a value of the wrong runtime type raises
  `AttributeError` in Python: a `str` has no `alpha_3` attribute, and a
  pycountry record (whose `Data.__getattr__` raises `AttributeError` for
  unknown keys) has no `isdigit` or `lower` method.  The embedding keeps
  the name of the missing attribute as the `AttributeError` payload.
* The external pycountry directory is modelled, per its call sites, as a
  record of total lookup functions (`get(alpha_2=...)`, `get(alpha_3=...)`,
  `get(numeric=...)`, `get(name=...)`, `get(common_name=...)`,
  `get(official_name=...)`, `search_fuzzy`).
* The bundled `capitals.json` table is an abstract map
  `String → Option String`; `k in capitals` is `capitals k = some _`.
* `str.isdigit` is true iff the string is non-empty and all-digits;
  `str.zfill(3)` left-pads with `'0'` to length 3 (its sign handling is
  irrelevant here: it is only reached after the `isdigit` guard).
-/

namespace CountryCapitals

/-- Python exception values raised by `main.py`, tagged by class.
`valueError` is a plain `ValueError`; `countryNotFoundError` and
`capitalNotFoundError` are the two subclasses defined in `main.py`;
`attributeError` (payload: the missing attribute) models the
`AttributeError` raised by attribute access on a wrongly-typed value. -/
inductive Exc where
  | valueError (msg : String)
  | countryNotFoundError (msg : String)
  | capitalNotFoundError (msg : String)
  | attributeError (attr : String)
  deriving DecidableEq, Repr

/-- Whether `except ValueError` catches this exception: true exactly for
`ValueError` and its two subclasses, false for `AttributeError`. -/
def Exc.isValueError : Exc → Bool
  | .valueError _ => true
  | .countryNotFoundError _ => true
  | .capitalNotFoundError _ => true
  | .attributeError _ => false

/-- A pycountry country record, restricted to the fields `main.py` reads. -/
structure Country where
  alpha_2 : String
  alpha_3 : String
  numeric : String
  deriving DecidableEq, Repr

/-- The `Any`-typed query passed to `get_capital`: either a raw string or
an already-resolved pycountry country record. -/
inductive Query where
  | str (s : String)
  | record (c : Country)
  deriving DecidableEq, Repr

/-- The external pycountry directory (`pycountry.countries`), as used by
`main.py`: one total lookup function per keyword field, plus fuzzy search
returning a best-first list (possibly empty). -/
structure Directory where
  get_alpha_2 : String → Option Country
  get_alpha_3 : String → Option Country
  get_numeric : String → Option Country
  get_name : String → Option Country
  get_common_name : String → Option Country
  get_official_name : String → Option Country
  search_fuzzy : String → List Country

/-- The capitals table loaded from `capitals.json`: alpha-3 code to
capital name. -/
abbrev Capitals := String → Option String

/-- Python `str.isdigit`: non-empty and every character a digit. -/
def pyIsDigit (s : String) : Bool :=
  !s.data.isEmpty && s.data.all Char.isDigit

/-- Python `str.zfill(3)` on a sign-free string: left-pad with zeros to
length 3 (strings of length ≥ 3 are unchanged). -/
def zfill3 (s : String) : String :=
  if 3 ≤ s.length then s else ⟨List.replicate (3 - s.length) '0' ++ s.data⟩

/-- `get_capital_by_pycountry_country(country)`: reads `country.alpha_3`
(on a string query this attribute access raises `AttributeError`), then
raises a plain `ValueError` when the capital is missing. -/
def get_capital_by_pycountry_country (capitals : Capitals) : Query → Except Exc String
  | .record country =>
    match capitals country.alpha_3 with
    | none => .error (.valueError
        ("Could not find a capital for country with alpha_3 ISO code " ++ country.alpha_3 ++ "."))
    | some cap => .ok cap
  | .str _ => .error (.attributeError "alpha_3")

/-- `get_capital_by_alpha3(alpha3)`. -/
def get_capital_by_alpha3 (D : Directory) (capitals : Capitals) (alpha3 : String) :
    Except Exc String :=
  if alpha3.length ≠ 3 then
    .error (.valueError ("Invalid ISO code " ++ alpha3 ++ ", must be 3 characters long."))
  else
    match D.get_alpha_3 alpha3 with
    | none => .error (.countryNotFoundError
        ("Could not find country with alpha_3 ISO code " ++ alpha3 ++ "."))
    | some country =>
      match capitals country.alpha_3 with
      | none => .error (.capitalNotFoundError
          ("Could not find a capital for country with alpha_3 ISO code " ++ alpha3 ++ "."))
      | some cap => .ok cap

/-- `get_capital_by_alpha2(alpha2)`. -/
def get_capital_by_alpha2 (D : Directory) (capitals : Capitals) (alpha2 : String) :
    Except Exc String :=
  if alpha2.length ≠ 2 then
    .error (.valueError ("Invalid ISO code " ++ alpha2 ++ ", must be 2 characters long."))
  else
    match D.get_alpha_2 alpha2 with
    | none => .error (.countryNotFoundError
        ("Could not find country with alpha_2 ISO code " ++ alpha2 ++ "."))
    | some country =>
      match capitals country.alpha_3 with
      | none => .error (.capitalNotFoundError
          ("Could not find a capital for country with alpha_2 ISO code " ++ alpha2 ++ "."))
      | some cap => .ok cap

/-- `get_capital_by_numeric(numeric)`: digit guard, then `zfill(3)`
(the padded code is used for the lookup and in later messages). -/
def get_capital_by_numeric (D : Directory) (capitals : Capitals) (numeric : String) :
    Except Exc String :=
  if !pyIsDigit numeric then
    .error (.valueError ("Invalid numeric ISO code " ++ numeric ++ ", must contain only digits."))
  else
    let numeric := zfill3 numeric
    match D.get_numeric numeric with
    | none => .error (.countryNotFoundError
        ("Could not find country with numeric ISO code " ++ numeric ++ "."))
    | some country =>
      match capitals country.alpha_3 with
      | none => .error (.capitalNotFoundError
          ("Could not find a capital for country with numeric ISO code " ++ numeric ++ "."))
      | some cap => .ok cap

/-- `get_capital_by_iso_code(iso_code)`: classify by `isdigit`, then
length 2, then length 3, else plain `ValueError` (invalid format).  On a
country-record query the very first step, `iso_code.isdigit()`, raises
`AttributeError` (pycountry records have no `isdigit`). -/
def get_capital_by_iso_code (D : Directory) (capitals : Capitals) : Query → Except Exc String
  | .str iso_code =>
    if pyIsDigit iso_code then get_capital_by_numeric D capitals iso_code
    else if iso_code.length = 2 then get_capital_by_alpha2 D capitals iso_code
    else if iso_code.length = 3 then get_capital_by_alpha3 D capitals iso_code
    else .error (.valueError ("Invalid ISO code " ++ iso_code ++ "."))
  | .record _ => .error (.attributeError "isdigit")

/-- `get_capital_by_name(country_name)`: look up `name`, `common_name`,
`official_name`; `if not any([...])` raise `CountryNotFoundError`, else
`country = first or second or third` (the first non-`None`).  The two
formulations coincide: the or-chain is `None` exactly when all three are.
On a record query the pycountry lookup calls `.lower()` on the value,
raising `AttributeError`. -/
def get_capital_by_name (D : Directory) (capitals : Capitals) : Query → Except Exc String
  | .str country_name =>
    match (D.get_name country_name).orElse
        (fun _ => (D.get_common_name country_name).orElse
          (fun _ => D.get_official_name country_name)) with
    | none => .error (.countryNotFoundError
        ("Could not find a country with name " ++ country_name ++ "."))
    | some country =>
      match capitals country.alpha_3 with
      | none => .error (.capitalNotFoundError
          ("Could not find a capital for country with name " ++ country_name ++ "."))
      | some cap => .ok cap
  | .record _ => .error (.attributeError "lower")

/-- `get_capital_by_fuzzy_name(country_name)`: fuzzy search, take the
first result. -/
def get_capital_by_fuzzy_name (D : Directory) (capitals : Capitals) : Query → Except Exc String
  | .str country_name =>
    match D.search_fuzzy country_name with
    | [] => .error (.countryNotFoundError
        ("Could not find a country with name " ++ country_name ++ "."))
    | country :: _ =>
      match capitals country.alpha_3 with
      | none => .error (.capitalNotFoundError
          ("Could not find a capital for country with name " ++ country_name ++ "."))
      | some cap => .ok cap
  | .record _ => .error (.attributeError "lower")

/-- Rendering of `f"{query}"` in the final error message of `get_capital`. -/
def queryText : Query → String
  | .str s => s
  | .record c => "Country(alpha_3=" ++ c.alpha_3 ++ ")"

/-- The `for func in FUNCTIONS: try: return func(query) except ValueError:
pass` loop of `get_capital`, followed by the final generic raise: a
success returns; an exception caught by `except ValueError` falls through
to the next strategy; any other exception propagates. -/
def runChain (q : Query) : List (Query → Except Exc String) → Except Exc String
  | [] => .error (.valueError ("Could not find a capital for " ++ queryText q ++ "."))
  | f :: rest =>
    match f q with
    | .ok cap => .ok cap
    | .error e => if e.isValueError then runChain q rest else .error e

/-- `get_capital(query, fuzzy=False)`: build `FUNCTIONS` (the fuzzy
strategy appended only when `fuzzy`) and run the loop. -/
def get_capital (D : Directory) (capitals : Capitals) (query : Query)
    (fuzzy : Bool := false) : Except Exc String :=
  runChain query
    ([get_capital_by_iso_code D capitals, get_capital_by_name D capitals,
      get_capital_by_pycountry_country capitals] ++
      if fuzzy then [get_capital_by_fuzzy_name D capitals] else [])

/-! ## Concrete test fixture

A small directory with France, Germany and the French Southern
Territories (a record present in the directory with no capital entry in
the table), used by witnesses and counterexamples. -/

def france : Country := ⟨"FR", "FRA", "250"⟩

def germany : Country := ⟨"DE", "DEU", "276"⟩

def atf : Country := ⟨"TF", "ATF", "260"⟩

def capsFix : Capitals := fun k =>
  if k = "FRA" then some "Paris" else if k = "DEU" then some "Berlin" else none

def dirFix : Directory where
  get_alpha_2 := fun s =>
    if s = "FR" then some france else if s = "DE" then some germany
    else if s = "TF" then some atf else none
  get_alpha_3 := fun s =>
    if s = "FRA" then some france else if s = "DEU" then some germany
    else if s = "ATF" then some atf else none
  get_numeric := fun s =>
    if s = "250" then some france else if s = "276" then some germany
    else if s = "260" then some atf else none
  get_name := fun s =>
    if s = "France" then some france else if s = "Germany" then some germany else none
  get_common_name := fun _ => none
  get_official_name := fun s => if s = "French Republic" then some france else none
  search_fuzzy := fun s => if s = "Franse" then [france] else []

example : get_capital dirFix capsFix (.str "FR") = .ok "Paris" := rfl

example : get_capital dirFix capsFix (.str "250") = .ok "Paris" := rfl

example : get_capital dirFix capsFix (.str "France") = .ok "Paris" := rfl

example : get_capital dirFix capsFix (.str "4") =
    .error (.attributeError "alpha_3") := rfl

/-! ## Helper lemmas -/

deriving instance DecidableEq for Except

theorem zfill3_eq_of_le {s : String} (h : 3 ≤ s.length) : zfill3 s = s := by
  simp [zfill3, h]

theorem three_le_length_zfill3 (s : String) : 3 ≤ (zfill3 s).length := by
  by_cases h3 : 3 ≤ s.length
  · rw [zfill3_eq_of_le h3]; exact h3
  · have hz : zfill3 s = ⟨List.replicate (3 - s.length) '0' ++ s.data⟩ := by
      simp [zfill3, h3]
    rw [hz]
    show 3 ≤ (List.replicate (3 - s.length) '0' ++ s.data).length
    rw [List.length_append, List.length_replicate]
    have hd : s.data.length = s.length := rfl
    omega

theorem zfill3_idem (s : String) : zfill3 (zfill3 s) = zfill3 s :=
  zfill3_eq_of_le (three_le_length_zfill3 s)

theorem pyIsDigit_zfill3 {s : String} (h : pyIsDigit s = true) :
    pyIsDigit (zfill3 s) = true := by
  have hne : s.data ≠ [] := by
    intro hnil
    rw [pyIsDigit, hnil] at h
    simp at h
  have hall : s.data.all Char.isDigit = true := by
    rw [pyIsDigit, Bool.and_eq_true] at h
    exact h.2
  by_cases h3 : 3 ≤ s.length
  · rw [zfill3_eq_of_le h3]; exact h
  · have hz : zfill3 s = ⟨List.replicate (3 - s.length) '0' ++ s.data⟩ := by
      simp [zfill3, h3]
    rw [hz]
    show (!(List.replicate (3 - s.length) '0' ++ s.data).isEmpty &&
      (List.replicate (3 - s.length) '0' ++ s.data).all Char.isDigit) = true
    rw [Bool.and_eq_true, Bool.not_eq_true']
    constructor
    · rw [Bool.eq_false_iff]
      intro hcon
      rw [List.isEmpty_iff, List.append_eq_nil] at hcon
      exact hne hcon.2
    · rw [List.all_append, Bool.and_eq_true]
      refine ⟨?_, hall⟩
      rw [List.all_eq_true]
      intro a ha
      rw [List.mem_replicate] at ha
      rw [ha.2]
      decide

theorem runChain_cons (q : Query) (f : Query → Except Exc String)
    (rest : List (Query → Except Exc String)) :
    runChain q (f :: rest) =
      match f q with
      | .ok cap => .ok cap
      | .error e => if e.isValueError then runChain q rest else .error e := rfl

/-- One step of the strategy chain, as the spec describes it: return the
strategy's success, fall through to the rest on a failure caught by
`except ValueError`, propagate any other failure. -/
def tryStrat (r : Except Exc String) (rest : Except Exc String) : Except Exc String :=
  match r with
  | .ok cap => .ok cap
  | .error e => if e.isValueError then rest else .error e

/-- Whether a strategy result is specifically a `CapitalNotFoundError`. -/
def isCapitalNotFoundResult (r : Except Exc String) : Bool :=
  match r with
  | .error (.capitalNotFoundError _) => true
  | _ => false

/-! ## Claim theorems -/

/-- C1 (corrected): the top-level `get_capital` tries the strategies in
the fixed order ISO-code, name, country-record, then (only when `fuzzy`
is true) fuzzy-name, and returns the first success; but it only catches
`ValueError`-class failures (`InvalidFormat`, `CountryNotFound`,
`CapitalNotFound`) — a strategy failure of another class, the
`AttributeError` raised when a query of the wrong runtime type reaches a
strategy, propagates immediately and aborts the chain. -/
theorem get_capital_chain_characterization (D : Directory) (caps : Capitals)
    (q : Query) (fz : Bool) :
    get_capital D caps q fz =
      tryStrat (get_capital_by_iso_code D caps q)
        (tryStrat (get_capital_by_name D caps q)
          (tryStrat (get_capital_by_pycountry_country caps q)
            (if fz then
              tryStrat (get_capital_by_fuzzy_name D caps q)
                (.error (.valueError ("Could not find a capital for " ++ queryText q ++ ".")))
            else
              .error (.valueError ("Could not find a capital for " ++ queryText q ++ "."))))) := by
  cases fz <;> rfl

/-- C1 (counterexample to the claim as stated): on the already-resolved
Germany record, the country-record strategy succeeds with "Berlin", yet
`get_capital` does not return it: the ISO-code strategy's
`AttributeError` (no `isdigit` on a record) is not caught by
`except ValueError`, so the chain aborts before reaching the strategy
that would succeed. -/
theorem get_capital_not_first_success_on_record :
    get_capital_by_pycountry_country capsFix (.record germany) = .ok "Berlin" ∧
    get_capital dirFix capsFix (.record germany) = .error (.attributeError "isdigit") :=
  ⟨rfl, rfl⟩

/-- C3 (code bug): on the string query "XX", every directory lookup
fails, so the spec expects the generic `NotFound` (`ValueError`
"Could not find a capital for XX."); instead, after the ISO-code and
name strategies fail with caught `CountryNotFoundError`s, the
country-record strategy evaluates `"XX".alpha_3`, whose `AttributeError`
escapes the `except ValueError` — the final generic raise in
`get_capital` is unreachable. -/
theorem get_capital_all_fail_raises_attribute_error :
    get_capital dirFix capsFix (.str "XX") = .error (.attributeError "alpha_3") ∧
    get_capital dirFix capsFix (.str "XX") ≠
      .error (.valueError "Could not find a capital for XX.") :=
  ⟨rfl, by decide⟩

/-- C4 (confirmed): `get_capital_by_iso_code` classifies a string query
by Python `isdigit` (non-empty, all digits) first, then length 2, then
length 3; any other string fails immediately with the plain-`ValueError`
invalid-format error, not a not-found error. -/
theorem iso_code_classification (D : Directory) (caps : Capitals) (s : String) :
    (pyIsDigit s = true →
      get_capital_by_iso_code D caps (.str s) = get_capital_by_numeric D caps s) ∧
    (pyIsDigit s = false → s.length = 2 →
      get_capital_by_iso_code D caps (.str s) = get_capital_by_alpha2 D caps s) ∧
    (pyIsDigit s = false → s.length ≠ 2 → s.length = 3 →
      get_capital_by_iso_code D caps (.str s) = get_capital_by_alpha3 D caps s) ∧
    (pyIsDigit s = false → s.length ≠ 2 → s.length ≠ 3 →
      get_capital_by_iso_code D caps (.str s) =
        .error (.valueError ("Invalid ISO code " ++ s ++ "."))) := by
  refine ⟨?_, ?_, ?_, ?_⟩ <;> intros <;> simp [get_capital_by_iso_code, *]

/-- C4 witness: the four classification branches at concrete inputs. -/
theorem iso_code_classification_witness :
    get_capital_by_iso_code dirFix capsFix (.str "250") =
      get_capital_by_numeric dirFix capsFix "250" ∧
    get_capital_by_iso_code dirFix capsFix (.str "FR") =
      get_capital_by_alpha2 dirFix capsFix "FR" ∧
    get_capital_by_iso_code dirFix capsFix (.str "FRA") =
      get_capital_by_alpha3 dirFix capsFix "FRA" ∧
    get_capital_by_iso_code dirFix capsFix (.str "ABCD") =
      .error (.valueError "Invalid ISO code ABCD.") :=
  ⟨(iso_code_classification dirFix capsFix "250").1 (by decide),
   (iso_code_classification dirFix capsFix "FR").2.1 (by decide) (by decide),
   (iso_code_classification dirFix capsFix "FRA").2.2.1 (by decide) (by decide) (by decide),
   (iso_code_classification dirFix capsFix "ABCD").2.2.2 (by decide) (by decide) (by decide)⟩

/-- C6 (code bug): on the already-resolved France record — whose alpha-3
code FRA has the capital "Paris" in the table — the country-record
strategy itself returns "Paris", but `get_capital` never reaches it: the
ISO-code strategy, tried first, calls `.isdigit()` on the record, and the
resulting `AttributeError` is not caught by `except ValueError`. -/
theorem get_capital_record_query_crashes :
    get_capital_by_pycountry_country capsFix (.record france) = .ok "Paris" ∧
    get_capital dirFix capsFix (.record france) = .error (.attributeError "isdigit") :=
  ⟨rfl, rfl⟩

/-- Antarctica: a record whose alpha-3 code has no capital entry. -/
def antarctica : Country := ⟨"AQ", "ATA", "010"⟩

/-- C2 (confirmed): each single code strategy, on a query of its accepted
shape (length 3 for alpha-3, length 2 for alpha-2, all digits for
numeric, the latter looked up after zero-padding): directory miss gives
`CountryNotFoundError`; a record whose alpha-3 code is missing from the
capitals table gives `CapitalNotFoundError`; otherwise the strategy
returns `capitals[record.alpha_3]`. -/
theorem single_code_strategy_contract (D : Directory) (caps : Capitals) :
    (∀ s, s.length = 3 →
      (D.get_alpha_3 s = none →
        get_capital_by_alpha3 D caps s = .error (.countryNotFoundError
          ("Could not find country with alpha_3 ISO code " ++ s ++ "."))) ∧
      (∀ c, D.get_alpha_3 s = some c → caps c.alpha_3 = none →
        get_capital_by_alpha3 D caps s = .error (.capitalNotFoundError
          ("Could not find a capital for country with alpha_3 ISO code " ++ s ++ "."))) ∧
      (∀ c cap, D.get_alpha_3 s = some c → caps c.alpha_3 = some cap →
        get_capital_by_alpha3 D caps s = .ok cap)) ∧
    (∀ s, s.length = 2 →
      (D.get_alpha_2 s = none →
        get_capital_by_alpha2 D caps s = .error (.countryNotFoundError
          ("Could not find country with alpha_2 ISO code " ++ s ++ "."))) ∧
      (∀ c, D.get_alpha_2 s = some c → caps c.alpha_3 = none →
        get_capital_by_alpha2 D caps s = .error (.capitalNotFoundError
          ("Could not find a capital for country with alpha_2 ISO code " ++ s ++ "."))) ∧
      (∀ c cap, D.get_alpha_2 s = some c → caps c.alpha_3 = some cap →
        get_capital_by_alpha2 D caps s = .ok cap)) ∧
    (∀ s, pyIsDigit s = true →
      (D.get_numeric (zfill3 s) = none →
        get_capital_by_numeric D caps s = .error (.countryNotFoundError
          ("Could not find country with numeric ISO code " ++ zfill3 s ++ "."))) ∧
      (∀ c, D.get_numeric (zfill3 s) = some c → caps c.alpha_3 = none →
        get_capital_by_numeric D caps s = .error (.capitalNotFoundError
          ("Could not find a capital for country with numeric ISO code " ++ zfill3 s ++ "."))) ∧
      (∀ c cap, D.get_numeric (zfill3 s) = some c → caps c.alpha_3 = some cap →
        get_capital_by_numeric D caps s = .ok cap)) := by
  refine ⟨fun s h => ⟨?_, ?_, ?_⟩, fun s h => ⟨?_, ?_, ?_⟩, fun s h => ⟨?_, ?_, ?_⟩⟩ <;>
    intros <;> simp [get_capital_by_alpha3, get_capital_by_alpha2, get_capital_by_numeric, *]

/-- C2 witness: the three outcomes at concrete inputs, including a padded
numeric lookup ("4" is looked up — and reported — as "004"). -/
theorem single_code_strategy_contract_witness :
    get_capital_by_alpha3 dirFix capsFix "ZZZ" = .error (.countryNotFoundError
      "Could not find country with alpha_3 ISO code ZZZ.") ∧
    get_capital_by_alpha3 dirFix capsFix "ATF" = .error (.capitalNotFoundError
      "Could not find a capital for country with alpha_3 ISO code ATF.") ∧
    get_capital_by_alpha2 dirFix capsFix "DE" = .ok "Berlin" ∧
    get_capital_by_numeric dirFix capsFix "4" = .error (.countryNotFoundError
      "Could not find country with numeric ISO code 004.") :=
  ⟨((single_code_strategy_contract dirFix capsFix).1 "ZZZ" (by decide)).1 (by decide),
   ((single_code_strategy_contract dirFix capsFix).1 "ATF" (by decide)).2.1 atf
     (by decide) (by decide),
   ((single_code_strategy_contract dirFix capsFix).2.1 "DE" (by decide)).2.2 germany "Berlin"
     (by decide) (by decide),
   ((single_code_strategy_contract dirFix capsFix).2.2 "4" (by decide)).1 (by decide)⟩

/-- C5 (confirmed): a numeric code is zero-padded to 3 digits before the
lookup ("4" becomes "004", and `get_capital_by_numeric` coincides on a
digit string and its padding), and for a 3-digit numeric code present in
the directory — whose record's alpha-3 code is a 3-letter key of the
capitals table and looks up to the same record — resolving the numeric
code and resolving the alpha-3 code both return that record's capital. -/
theorem numeric_pad_and_alpha3_agree (D : Directory) (caps : Capitals) :
    zfill3 "4" = "004" ∧
    (∀ s, pyIsDigit s = true →
      get_capital_by_numeric D caps s = get_capital_by_numeric D caps (zfill3 s)) ∧
    (∀ n c cap, pyIsDigit n = true → n.length = 3 →
      D.get_numeric n = some c →
      pyIsDigit c.alpha_3 = false → c.alpha_3.length = 3 →
      D.get_alpha_3 c.alpha_3 = some c →
      caps c.alpha_3 = some cap →
      get_capital D caps (.str n) = .ok cap ∧
      get_capital D caps (.str c.alpha_3) = .ok cap) := by
  refine ⟨rfl, ?_, ?_⟩
  · intro s h
    simp [get_capital_by_numeric, h, pyIsDigit_zfill3 h, zfill3_idem]
  · intro n c cap h1 h2 h3 h4 h5 h6 h7
    have hz : zfill3 n = n := zfill3_eq_of_le (by omega)
    constructor
    · simp [get_capital, runChain, get_capital_by_iso_code, get_capital_by_numeric,
        h1, hz, h3, h7]
    · simp [get_capital, runChain, get_capital_by_iso_code, get_capital_by_alpha3,
        h4, h5, h6, h7]

/-- C5 witness: France's numeric code "250" and alpha-3 code "FRA" both
resolve to "Paris". -/
theorem numeric_pad_and_alpha3_agree_witness :
    get_capital dirFix capsFix (.str "250") = .ok "Paris" ∧
    get_capital dirFix capsFix (.str "FRA") = .ok "Paris" :=
  (numeric_pad_and_alpha3_agree dirFix capsFix).2.2 "250" france "Paris"
    (by decide) (by decide) (by decide) (by decide) (by decide) (by decide) (by decide)

/-- C7 (counterexample to the claim as stated): invoked directly on the
French Southern Territories record, whose alpha-3 code ATF has no
capital entry, `get_capital_by_pycountry_country` raises a plain
`ValueError` — not the specific `CapitalNotFoundError` class used by
every other strategy for this condition. -/
theorem record_strategy_error_not_specific :
    get_capital_by_pycountry_country capsFix (.record atf) =
      .error (.valueError "Could not find a capital for country with alpha_3 ISO code ATF.") ∧
    isCapitalNotFoundResult (get_capital_by_pycountry_country capsFix (.record atf)) = false :=
  ⟨rfl, rfl⟩

/-- C7 (amended): on a record whose alpha-3 code is missing from the
capitals table, the directly-invoked country-record strategy fails with a
plain `ValueError` whose message reports the missing capital, not with
the `CapitalNotFoundError` class. -/
theorem record_strategy_missing_capital_plain_error (caps : Capitals) (c : Country)
    (h : caps c.alpha_3 = none) :
    get_capital_by_pycountry_country caps (.record c) =
      .error (.valueError ("Could not find a capital for country with alpha_3 ISO code "
        ++ c.alpha_3 ++ ".")) ∧
    isCapitalNotFoundResult (get_capital_by_pycountry_country caps (.record c)) = false := by
  simp [get_capital_by_pycountry_country, h, isCapitalNotFoundResult]

/-- C7 witness: the amended statement at the Antarctica record. -/
theorem record_strategy_missing_capital_plain_error_witness :
    get_capital_by_pycountry_country capsFix (.record antarctica) =
      .error (.valueError "Could not find a capital for country with alpha_3 ISO code ATA.") ∧
    isCapitalNotFoundResult (get_capital_by_pycountry_country capsFix (.record antarctica))
      = false :=
  record_strategy_missing_capital_plain_error capsFix antarctica (by decide)

/-- C8 (confirmed): a non-digit string of length ≥ 4 makes the
directly-invoked ISO-code strategy fail with the plain-`ValueError`
invalid-format error, and the top-level `get_capital` catches that
failure and continues with the chain starting at the name strategy. -/
theorem invalid_format_falls_through (D : Directory) (caps : Capitals) (s : String)
    (fz : Bool) (hd : pyIsDigit s = false) (hl : 4 ≤ s.length) :
    get_capital_by_iso_code D caps (.str s) =
      .error (.valueError ("Invalid ISO code " ++ s ++ ".")) ∧
    get_capital D caps (.str s) fz =
      runChain (.str s)
        ([get_capital_by_name D caps, get_capital_by_pycountry_country caps] ++
          if fz then [get_capital_by_fuzzy_name D caps] else []) := by
  have h2 : s.length ≠ 2 := by omega
  have h3 : s.length ≠ 3 := by omega
  have hiso : get_capital_by_iso_code D caps (.str s) =
      .error (.valueError ("Invalid ISO code " ++ s ++ ".")) := by
    simp [get_capital_by_iso_code, hd, h2, h3]
  refine ⟨hiso, ?_⟩
  rw [get_capital,
    show ([get_capital_by_iso_code D caps, get_capital_by_name D caps,
        get_capital_by_pycountry_country caps] ++
        if fz then [get_capital_by_fuzzy_name D caps] else []) =
      get_capital_by_iso_code D caps ::
        ([get_capital_by_name D caps, get_capital_by_pycountry_country caps] ++
          if fz then [get_capital_by_fuzzy_name D caps] else []) from rfl,
    runChain_cons, hiso]
  simp [Exc.isValueError]

/-- C8 witness: the statement at "ABCD" with the fuzzy flag set. -/
theorem invalid_format_falls_through_witness :
    get_capital_by_iso_code dirFix capsFix (.str "ABCD") =
      .error (.valueError "Invalid ISO code ABCD.") ∧
    get_capital dirFix capsFix (.str "ABCD") true =
      runChain (.str "ABCD")
        ([get_capital_by_name dirFix capsFix, get_capital_by_pycountry_country capsFix] ++
          if true then [get_capital_by_fuzzy_name dirFix capsFix] else []) :=
  invalid_format_falls_through dirFix capsFix "ABCD" true (by decide) (by decide)

/-- C9 (confirmed): the name strategy consults `name`, `common_name` and
`official_name` in that order; the first lookup returning a record
decides the country whose capital is looked up, and if all three return
nothing the strategy fails with `CountryNotFoundError`. -/
theorem name_strategy_first_match (D : Directory) (caps : Capitals) (s : String) :
    ((D.get_name s = none ∧ D.get_common_name s = none ∧ D.get_official_name s = none) →
      get_capital_by_name D caps (.str s) =
        .error (.countryNotFoundError ("Could not find a country with name " ++ s ++ "."))) ∧
    (∀ c, D.get_name s = some c →
      get_capital_by_name D caps (.str s) =
        match caps c.alpha_3 with
        | none => .error (.capitalNotFoundError
            ("Could not find a capital for country with name " ++ s ++ "."))
        | some cap => .ok cap) ∧
    (∀ c, D.get_name s = none → D.get_common_name s = some c →
      get_capital_by_name D caps (.str s) =
        match caps c.alpha_3 with
        | none => .error (.capitalNotFoundError
            ("Could not find a capital for country with name " ++ s ++ "."))
        | some cap => .ok cap) ∧
    (∀ c, D.get_name s = none → D.get_common_name s = none → D.get_official_name s = some c →
      get_capital_by_name D caps (.str s) =
        match caps c.alpha_3 with
        | none => .error (.capitalNotFoundError
            ("Could not find a capital for country with name " ++ s ++ "."))
        | some cap => .ok cap) := by
  refine ⟨?_, ?_, ?_, ?_⟩
  · rintro ⟨h1, h2, h3⟩
    simp [get_capital_by_name, h1, h2, h3, Option.orElse]
  · intro c h1
    simp [get_capital_by_name, h1, Option.orElse]
  · intro c h1 h2
    simp [get_capital_by_name, h1, h2, Option.orElse]
  · intro c h1 h2 h3
    simp [get_capital_by_name, h1, h2, h3, Option.orElse]

/-- C9 witness: no match, a `name` match, and an `official_name`-only
match, at concrete inputs. -/
theorem name_strategy_first_match_witness :
    get_capital_by_name dirFix capsFix (.str "Nowhere") =
      .error (.countryNotFoundError "Could not find a country with name Nowhere.") ∧
    get_capital_by_name dirFix capsFix (.str "France") = .ok "Paris" ∧
    get_capital_by_name dirFix capsFix (.str "French Republic") = .ok "Paris" :=
  ⟨(name_strategy_first_match dirFix capsFix "Nowhere").1 (by decide),
   ((name_strategy_first_match dirFix capsFix "France").2.1 france (by decide)).trans rfl,
   ((name_strategy_first_match dirFix capsFix "French Republic").2.2.2 france
     (by decide) (by decide) (by decide)).trans rfl⟩

/-- C10 (confirmed): an all-digit string longer than 3 characters is left
unchanged by the zero-padding and treated as a numeric code; when the
directory has no record for it, the ISO-code strategy fails with
`CountryNotFoundError`, never with the invalid-format error. -/
theorem long_digit_query_not_invalid_format (D : Directory) (caps : Capitals) (s : String)
    (hd : pyIsDigit s = true) (hl : 3 < s.length) (hn : D.get_numeric s = none) :
    zfill3 s = s ∧
    get_capital_by_iso_code D caps (.str s) =
      .error (.countryNotFoundError
        ("Could not find country with numeric ISO code " ++ s ++ ".")) := by
  have hz : zfill3 s = s := zfill3_eq_of_le (by omega)
  refine ⟨hz, ?_⟩
  simp [get_capital_by_iso_code, get_capital_by_numeric, hd, hz, hn]

/-- C10 witness: the statement at "1234". -/
theorem long_digit_query_not_invalid_format_witness :
    zfill3 "1234" = "1234" ∧
    get_capital_by_iso_code dirFix capsFix (.str "1234") =
      .error (.countryNotFoundError "Could not find country with numeric ISO code 1234.") :=
  long_digit_query_not_invalid_format dirFix capsFix "1234" (by decide) (by decide) (by decide)

end CountryCapitals
